import Mathlib

/-
Verification of the Zaffex CoinEx swap RSI scalping bot (src/main.py) as a
shallow embedding in Lean 4.

Modelling conventions:
- Python floats become exact rationals.  All comparisons in the claims are
  exact, so this is faithful for the properties checked here.
- Python dicts become functions into Option, with pointwise update and pop.
- External I/O (ccxt exchange calls, Telegram, file persistence, wall-clock
  reads) is modelled by explicit inputs: the fetched price, the sized
  quantity returned by the exchange precision clamp, the success of a live
  order, and the outcome of the exchange order-status probe are parameters.
- Mode and symbol names stay strings as in the source; position side and the
  hysteresis state, which the source encodes as the strings long/short and
  below/above/mid, become small inductive types.
-/

namespace Zaffex

/-- Side of a position, source strings "long" and "short". -/
inductive Side
  | long
  | short
deriving DecidableEq

/-- Hysteresis state per symbol, source strings "below", "above", "mid". -/
inductive RsiSt
  | below
  | above
  | mid
deriving DecidableEq

/-- Close reasons produced by maybe_close_one in src/main.py: the local
watchdog reasons TP(Local), SL(Local), TIMEOUT(Local) and the exchange-probe
reasons TP(Exch), SL(Exch).  There is no trailing-specific reason in the
source. -/
inductive CloseReason
  | tpLocal
  | slLocal
  | timeoutLocal
  | tpExch
  | slExch
deriving DecidableEq

/-- The subset of CONFIG (src/main.py lines 46-91) that the verified core
reads.  Percentages are stored as in the environment (e.g. 0.40 for 0.40%)
and scaled by pct at use sites, exactly as in the source. -/
structure Config where
  live : Bool
  rsiBuyThreshold : ℚ
  rsiSellThreshold : ℚ
  rsiHysteresis : ℚ
  signalCooldown : ℚ
  lossCooldownSec : ℚ
  timeoutMin : ℚ
  feeRate : ℚ
  enableBreakeven : Bool
  beTriggerPct : ℚ
  beOffsetPct : ℚ
  enableTrail : Bool
  trailTriggerPct : ℚ
  trailStepPct : ℚ
  capitalAgresivo : ℚ
  capitalModerado : ℚ
  capitalConservador : ℚ
  lotSizeAgresivo : ℤ
  lotSizeModerado : ℤ
  lotSizeConservador : ℤ
  tpPctA : ℚ
  slPctA : ℚ
  tpPctM : ℚ
  slPctM : ℚ
  tpPctC : ℚ
  slPctC : ℚ
  tpPctDefault : ℚ
  slPctDefault : ℚ
  accountStart : ℚ

/-- Source: def pct(x). -/
def pct (x : ℚ) : ℚ := x / 100

/-- Source: def compute_fee(notional), reads CONFIG FEE_RATE. -/
def compute_fee (cfg : Config) (notional : ℚ) : ℚ := notional * cfg.feeRate

/-- Mode name constant, source string literal. -/
def agresivo : String := "agresivo"

/-- Mode name constant, source string literal. -/
def moderado : String := "moderado"

/-- Mode name constant, source string literal. -/
def conservador : String := "conservador"

/-- Source: def lots_by_mode(mode), a dict lookup with default 0. -/
def lots_by_mode (cfg : Config) (mode : String) : ℤ :=
  if mode = agresivo then cfg.lotSizeAgresivo
  else if mode = moderado then cfg.lotSizeModerado
  else if mode = conservador then cfg.lotSizeConservador
  else 0

/-- Source: def cap_by_mode(mode), a dict lookup with default 0.0. -/
def cap_by_mode (cfg : Config) (mode : String) : ℚ :=
  if mode = agresivo then cfg.capitalAgresivo
  else if mode = moderado then cfg.capitalModerado
  else if mode = conservador then cfg.capitalConservador
  else 0

/-- Source: def tp_sl_by_mode(mode). -/
def tp_sl_by_mode (cfg : Config) (mode : String) : ℚ × ℚ :=
  if mode = agresivo then (cfg.tpPctA, cfg.slPctA)
  else if mode = moderado then (cfg.tpPctM, cfg.slPctM)
  else if mode = conservador then (cfg.tpPctC, cfg.slPctC)
  else (cfg.tpPctDefault, cfg.slPctDefault)

/-- Source: def notional_per_lot(mode) = cap_by_mode(mode) / max(lots, 1). -/
def notional_per_lot (cfg : Config) (mode : String) : ℚ :=
  cap_by_mode cfg mode / ((max (lots_by_mode cfg mode) 1 : ℤ) : ℚ)

/-- First-order differences of consecutive closes, the deltas of the two
index loops in rsi_wilder (src/main.py lines 174-184). -/
def deltasOf (closes : List ℚ) : List ℚ :=
  (closes.zip closes.tail).map fun p => p.2 - p.1

/-- One Wilder smoothing update (src/main.py lines 182-184):
avg = (avg*(period-1) + gain-or-loss) / period. -/
def wilderStep (period : ℕ) (acc : ℚ × ℚ) (d : ℚ) : ℚ × ℚ :=
  ((acc.1 * ((period : ℚ) - 1) + max d 0) / (period : ℚ),
   (acc.2 * ((period : ℚ) - 1) + max (-d) 0) / (period : ℚ))

/-- Final (avg_gain, avg_loss) pair computed by rsi_wilder: seed averages
from the first period deltas (d >= 0 counts as gain, else as loss), then
fold the Wilder update over the remaining deltas. -/
def wilderAvgs (closes : List ℚ) (period : ℕ) : ℚ × ℚ :=
  ((deltasOf closes).drop period).foldl (wilderStep period)
    (((((deltasOf closes).take period).map fun d => if 0 ≤ d then d else 0).sum / (period : ℚ)),
     ((((deltasOf closes).take period).map fun d => if 0 ≤ d then 0 else -d).sum / (period : ℚ)))

/-- Source: def rsi_wilder(closes, period) (src/main.py lines 169-187).
Returns none when fewer than period+1 closes are available; 100 when the
smoothed average loss is zero; the usual formula otherwise.  The source
raises on period = 0 with a nonempty list (division by zero), so theorems
assume 0 < period. -/
def rsi_wilder (closes : List ℚ) (period : ℕ) : Option ℚ :=
  if closes.length < period + 1 then none
  else if (wilderAvgs closes period).2 = 0 then some 100
  else some (100 - 100 / (1 + (wilderAvgs closes period).1 / (wilderAvgs closes period).2))

/-- Source: def rsi_state_update(symbol, rsi_val) (src/main.py lines
532-545), the pure state transition: the caller passes the previous state
(dict default "mid") and receives the next state. -/
def rsi_state_update (cfg : Config) (prev : RsiSt) (rsiVal : ℚ) : RsiSt :=
  if rsiVal < cfg.rsiBuyThreshold then RsiSt.below
  else if rsiVal > cfg.rsiSellThreshold then RsiSt.above
  else if prev = RsiSt.below ∧ rsiVal > cfg.rsiBuyThreshold + cfg.rsiHysteresis then RsiSt.mid
  else if prev = RsiSt.above ∧ rsiVal < cfg.rsiSellThreshold - cfg.rsiHysteresis then RsiSt.mid
  else prev

/-- The long-entry firing condition of the main loop (src/main.py line 625):
prev != "below" and new == "below". -/
def fire_long (cfg : Config) (prev : RsiSt) (r : ℚ) : Bool :=
  decide (prev ≠ RsiSt.below) && decide (rsi_state_update cfg prev r = RsiSt.below)

/-- The short-entry firing condition of the main loop (src/main.py line
631): prev != "above" and new == "above". -/
def fire_short (cfg : Config) (prev : RsiSt) (r : ℚ) : Bool :=
  decide (prev ≠ RsiSt.above) && decide (rsi_state_update cfg prev r = RsiSt.above)

/-- Iterated ticks of the hysteresis machine: threads the state through a
list of RSI values and records the (long, short) firing flags per tick. -/
def run_ticks (cfg : Config) : RsiSt → List ℚ → List (Bool × Bool)
  | _, [] => []
  | stPrev, r :: rest =>
      (fire_long cfg stPrev r, fire_short cfg stPrev r) ::
        run_ticks cfg (rsi_state_update cfg stPrev r) rest

/-- One tracked position, the dict created in open_position (src/main.py
lines 424-432).  The fields local_sl and trail_anchor are always written at
creation, so the dict .get defaults (pos sl and pos entry) never differ from
the stored values and the fields are plain here. -/
structure Position where
  entry : ℚ
  qty : ℚ
  tp : ℚ
  sl : ℚ
  side : Side
  openedAt : ℚ
  entryFee : ℚ
  trailActive : Bool
  trailAnchor : ℚ
  beDone : Bool
  tpId : Option String
  slId : Option String
  localSl : ℚ
deriving DecidableEq

/-- Position key (symbol, mode, side), src/main.py line 233. -/
abbrev PosKey := String × String × Side

/-- Dict write, Python d[k] = v. -/
def dset {α β : Type} [DecidableEq α] (d : α → Option β) (k : α) (v : β) : α → Option β :=
  fun k2 => if k2 = k then some v else d k2

/-- Dict removal, Python d.pop(k, None). -/
def dpop {α β : Type} [DecidableEq α] (d : α → Option β) (k : α) : α → Option β :=
  fun k2 => if k2 = k then none else d k2

/-- Dict read with default, Python d.get(k, x). -/
def dgetD {α β : Type} (d : α → Option β) (k : α) (x : β) : β :=
  (d k).getD x

/-- Running and hourly-window totals, the STATS dict (src/main.py lines
244-248).  The two scheduling timestamps h_started and last_summary feed
only the periodic summary and are omitted. -/
structure Stats where
  trades : ℕ
  wins : ℕ
  losses : ℕ
  pnl : ℚ
  fees : ℚ
  volume : ℚ
  balance : ℚ
  hTrades : ℕ
  hWins : ℕ
  hLosses : ℕ
  hPnl : ℚ
  hFees : ℚ
  hVolume : ℚ
deriving DecidableEq

/-- Source: def stats_on_close(s, pnl_net, fees, notional_exit) (src/main.py
lines 258-271).  A trade with pnl_net >= 0 counts as a win in both the
running and the hourly counters; balance is ACCOUNT_START plus cumulated
pnl. -/
def stats_on_close (cfg : Config) (s : Stats) (pnlNet fees notionalExit : ℚ) : Stats :=
  { trades := s.trades + 1
    wins := if pnlNet ≥ 0 then s.wins + 1 else s.wins
    losses := if pnlNet ≥ 0 then s.losses else s.losses + 1
    pnl := s.pnl + pnlNet
    fees := s.fees + fees
    volume := s.volume + |notionalExit|
    balance := cfg.accountStart + (s.pnl + pnlNet)
    hTrades := s.hTrades + 1
    hWins := if pnlNet ≥ 0 then s.hWins + 1 else s.hWins
    hLosses := if pnlNet ≥ 0 then s.hLosses else s.hLosses + 1
    hPnl := s.hPnl + pnlNet
    hFees := s.hFees + fees
    hVolume := s.hVolume + |notionalExit| }

/-- Global mutable state of the bot (src/main.py lines 232-237): the
positions dict keyed by (symbol, mode, side), last_signal_time keyed by
symbol only, last_loss_time keyed by (symbol, mode, side), the hysteresis
state per symbol, and STATS. -/
structure BotState where
  positions : PosKey → Option Position
  lastSignalTime : String → Option ℚ
  lastLossTime : PosKey → Option ℚ
  rsiState : String → Option RsiSt
  stats : Stats

/-- Breakeven block of _apply_breakeven_and_trailing (src/main.py lines
296-309): one-time stop tightening once price moves be_trigger in favor;
for a long the stop only ever rises (max), for a short it only falls
(min). -/
def apply_breakeven (cfg : Config) (pos : Position) (price : ℚ) : Position :=
  if cfg.enableBreakeven = true ∧ pos.beDone = false then
    if pos.side = Side.long then
      if price ≥ pos.entry * (1 + pct cfg.beTriggerPct) then
        { pos with localSl := max pos.localSl (pos.entry * (1 + pct cfg.beOffsetPct)),
                   beDone := true }
      else pos
    else
      if price ≤ pos.entry * (1 - pct cfg.beTriggerPct) then
        { pos with localSl := min pos.localSl (pos.entry * (1 - pct cfg.beOffsetPct)),
                   beDone := true }
      else pos
  else pos

/-- Trailing block of _apply_breakeven_and_trailing (src/main.py lines
311-326): once price is trail_trigger in favor, ratchet the anchor to the
best seen price and the local stop toward anchor*(1 -+ step), never
loosening (max for long, min for short). -/
def apply_trailing (cfg : Config) (pos : Position) (price : ℚ) : Position :=
  if cfg.enableTrail = true then
    if pos.side = Side.long then
      if price ≥ pos.entry * (1 + pct cfg.trailTriggerPct) then
        { pos with trailActive := true,
                   trailAnchor := max pos.trailAnchor price,
                   localSl := max pos.localSl (max pos.trailAnchor price * (1 - pct cfg.trailStepPct)) }
      else pos
    else
      if price ≤ pos.entry * (1 - pct cfg.trailTriggerPct) then
        { pos with trailActive := true,
                   trailAnchor := min pos.trailAnchor price,
                   localSl := min pos.localSl (min pos.trailAnchor price * (1 + pct cfg.trailStepPct)) }
      else pos
  else pos

/-- Source: def _apply_breakeven_and_trailing(pos, price) (src/main.py lines
295-326), breakeven block then trailing block on the already-updated
position. -/
def apply_breakeven_and_trailing (cfg : Config) (pos : Position) (price : ℚ) : Position :=
  apply_trailing cfg (apply_breakeven cfg pos price) price

/-- Local watchdog reason of maybe_close_one (src/main.py lines 463-470):
for a long, TP(Local) when price >= tp, else SL(Local) when price <= the
effective stop local_sl; mirrored for a short.  TP is checked first. -/
def why_local (pos : Position) (side : Side) (price : ℚ) : Option CloseReason :=
  if side = Side.long then
    if price ≥ pos.tp then some CloseReason.tpLocal
    else if price ≤ pos.localSl then some CloseReason.slLocal
    else none
  else
    if price ≤ pos.tp then some CloseReason.tpLocal
    else if price ≥ pos.localSl then some CloseReason.slLocal
    else none

/-- Watchdog reason including the timeout check (src/main.py lines 472-473):
when no price reason fired and the position is at least TIMEOUT_MIN minutes
old, TIMEOUT(Local). -/
def why_with_timeout (cfg : Config) (pos : Position) (side : Side) (price now : ℚ) : Option CloseReason :=
  if why_local pos side price = none ∧ now - pos.openedAt ≥ cfg.timeoutMin * 60 then
    some CloseReason.timeoutLocal
  else why_local pos side price

/-- Full close-reason decision of maybe_close_one (src/main.py lines
462-487): local watchdog and timeout first; only when those produced nothing
and the bot is LIVE with exchange exit orders on record does the
exchange-order probe (network I/O, modelled by the input exchWhy) decide. -/
def close_reason (cfg : Config) (pos : Position) (side : Side) (price now : ℚ)
    (exchWhy : Option CloseReason) : Option CloseReason :=
  if why_with_timeout cfg pos side price now = none ∧ cfg.live = true ∧
      (pos.tpId.isSome ∨ pos.slId.isSome) then exchWhy
  else why_with_timeout cfg pos side price now

/-- Total fee charged at close (src/main.py lines 495-496): the entry fee
stored on the position plus compute_fee of the exit notional price*qty. -/
def close_fees (cfg : Config) (pos : Position) (price : ℚ) : ℚ :=
  pos.entryFee + compute_fee cfg (price * pos.qty)

/-- Net pnl at close (src/main.py lines 497-498): gross is
(price - entry) * qty signed by the key side, net subtracts both fees. -/
def close_pnl (cfg : Config) (pos : Position) (side : Side) (price : ℚ) : ℚ :=
  (price - pos.entry) * pos.qty * (if side = Side.long then (1 : ℚ) else -1)
    - close_fees cfg pos price

/-- Source: def maybe_close_one(ex, key) (src/main.py lines 453-529) with
price the fetched ticker value and now the wall clock.  Runs the
breakeven/trailing updates, decides the close reason; on no reason keeps the
(possibly ratcheted) position; on a reason computes gross, fees and net pnl,
updates STATS, records a loss timestamp under the full (symbol, mode, side)
key iff pnl < 0, and pops the position.  The live order cancellation and the
close notification are external I/O without local state effect. -/
def maybe_close_one (cfg : Config) (st : BotState) (key : PosKey) (price now : ℚ)
    (exchWhy : Option CloseReason) : BotState :=
  match st.positions key with
  | none => st
  | some pos0 =>
    let pos := apply_breakeven_and_trailing cfg pos0 price
    match close_reason cfg pos key.2.2 price now exchWhy with
    | none => { st with positions := dset st.positions key pos }
    | some _ =>
      { st with
        positions := dpop st.positions key
        stats := stats_on_close cfg st.stats (close_pnl cfg pos key.2.2 price)
          (close_fees cfg pos price) (price * pos.qty)
        lastLossTime := if close_pnl cfg pos key.2.2 price < 0
          then dset st.lastLossTime key now else st.lastLossTime }

/-- The position dict literal written by open_position (src/main.py lines
424-432): entry is the fetched price, tp and sl come from the tier
percentages (long at entry*(1 +- pct), short mirrored), trail_anchor starts
at entry, local_sl starts at sl, exchange order ids start empty. -/
def new_position (cfg : Config) (key : PosKey) (price sizedQty now : ℚ) : Position :=
  { entry := price
    qty := sizedQty
    tp := if key.2.2 = Side.long then price * (1 + pct (tp_sl_by_mode cfg key.2.1).1)
          else price * (1 - pct (tp_sl_by_mode cfg key.2.1).1)
    sl := if key.2.2 = Side.long then price * (1 - pct (tp_sl_by_mode cfg key.2.1).2)
          else price * (1 + pct (tp_sl_by_mode cfg key.2.1).2)
    side := key.2.2
    openedAt := now
    entryFee := compute_fee cfg (price * sizedQty)
    trailActive := false
    trailAnchor := price
    beDone := false
    tpId := none
    slId := none
    localSl := if key.2.2 = Side.long then price * (1 - pct (tp_sl_by_mode cfg key.2.1).2)
               else price * (1 + pct (tp_sl_by_mode cfg key.2.1).2) }

/-- Source: def open_position(ex, symbol, mode, side, reason) (src/main.py
lines 389-451).  price is the fetched ticker value; sizedQty the result of
size_from_notional, whose exchange precision clamp is external; orderFails
whether the live market order raised.  The price_to_precision rounding of tp
and sl is exchange metadata I/O, modelled as identity.  The Bool result
records whether the open notification block was reached: every early return
(key already present, loss cooldown active, bad notional or price, zero
quantity, live order failure) leaves the state unchanged and sends
nothing. -/
def open_position (cfg : Config) (st : BotState) (key : PosKey) (price sizedQty now : ℚ)
    (orderFails : Bool) : BotState × Bool :=
  if (st.positions key).isSome then (st, false)
  else if now - dgetD st.lastLossTime key 0 < cfg.lossCooldownSec then (st, false)
  else if notional_per_lot cfg key.2.1 ≤ 0 ∨ price ≤ 0 then (st, false)
  else if sizedQty ≤ 0 then (st, false)
  else if cfg.live = true ∧ orderFails = true then (st, false)
  else
    ({ st with positions := dset st.positions key (new_position cfg key price sizedQty now) },
     true)

/-- The per-signal loop body of main (src/main.py lines 627-628 and
633-634): open_position for the three modes in order. -/
def open_all_modes (cfg : Config) (st : BotState) (symbol : String) (side : Side)
    (price now : ℚ) (sizedQty : String → ℚ) (orderFails : String → Bool) : BotState :=
  ((open_position cfg
    ((open_position cfg
      ((open_position cfg st (symbol, agresivo, side) price (sizedQty agresivo) now
        (orderFails agresivo)).1)
      (symbol, moderado, side) price (sizedQty moderado) now (orderFails moderado)).1)
    (symbol, conservador, side) price (sizedQty conservador) now (orderFails conservador)).1)

/-- The per-symbol signal section of the main loop (src/main.py lines
615-635): read the per-symbol last signal time, update the hysteresis state,
and when the per-symbol cooldown has elapsed fire the long and short edges;
each firing edge opens all three modes and then marks last_signal_time for
the symbol, regardless of whether any open succeeded. -/
def signal_tick (cfg : Config) (st : BotState) (symbol : String) (rsiVal : Option ℚ)
    (price now : ℚ) (sizedQty : String → ℚ)
    (orderFailsLong orderFailsShort : String → Bool) : BotState :=
  match rsiVal with
  | none => st
  | some r =>
    let prev := dgetD st.rsiState symbol RsiSt.mid
    let next := rsi_state_update cfg prev r
    let st1 : BotState := { st with rsiState := dset st.rsiState symbol next }
    if now - dgetD st1.lastSignalTime symbol 0 ≥ cfg.signalCooldown then
      let st2 : BotState :=
        if prev ≠ RsiSt.below ∧ next = RsiSt.below then
          let stO := open_all_modes cfg st1 symbol Side.long price now sizedQty orderFailsLong
          { stO with lastSignalTime := dset stO.lastSignalTime symbol now }
        else st1
      if prev ≠ RsiSt.above ∧ next = RsiSt.above then
        let stO := open_all_modes cfg st2 symbol Side.short price now sizedQty orderFailsShort
        { stO with lastSignalTime := dset stO.lastSignalTime symbol now }
      else st2
    else st1

/-- Concrete paper-mode configuration used by the concrete scenarios: RSI
thresholds 30/70 with hysteresis 3, signal cooldown 300 s, loss cooldown
900 s, timeout 15 min, zero fees, breakeven and trailing disabled, 100 USDT
capital and one lot per tier, 1 percent TP and SL everywhere. -/
def cfg0 : Config :=
  { live := false
    rsiBuyThreshold := 30
    rsiSellThreshold := 70
    rsiHysteresis := 3
    signalCooldown := 300
    lossCooldownSec := 900
    timeoutMin := 15
    feeRate := 0
    enableBreakeven := false
    beTriggerPct := 3/10
    beOffsetPct := 1/20
    enableTrail := false
    trailTriggerPct := 2/5
    trailStepPct := 1/5
    capitalAgresivo := 100
    capitalModerado := 100
    capitalConservador := 100
    lotSizeAgresivo := 1
    lotSizeModerado := 1
    lotSizeConservador := 1
    tpPctA := 1
    slPctA := 1
    tpPctM := 1
    slPctM := 1
    tpPctC := 1
    slPctC := 1
    tpPctDefault := 1
    slPctDefault := 1
    accountStart := 0 }

/-- Empty totals. -/
def stats0 : Stats :=
  { trades := 0, wins := 0, losses := 0, pnl := 0, fees := 0, volume := 0, balance := 0
    hTrades := 0, hWins := 0, hLosses := 0, hPnl := 0, hFees := 0, hVolume := 0 }

/-- Empty bot state: no positions, no cooldown records, no hysteresis
state. -/
def st0 : BotState :=
  { positions := fun _ => none
    lastSignalTime := fun _ => none
    lastLossTime := fun _ => none
    rsiState := fun _ => none
    stats := stats0 }

/-- Concrete symbol name. -/
def symA : String := "BTC/USDT"

/-- Key of a long aggressive-tier position on symA. -/
def keyLA : PosKey := (symA, agresivo, Side.long)

/-- Key of the short aggressive-tier position on the same symbol and
tier. -/
def keySA : PosKey := (symA, agresivo, Side.short)

/-- A fresh long position: entry 100, qty 2, tp 101, stop 99, nothing
armed. -/
def pos_c1 : Position :=
  { entry := 100, qty := 2, tp := 101, sl := 99, side := Side.long, openedAt := 0,
    entryFee := 0, trailActive := false, trailAnchor := 100, beDone := false,
    tpId := none, slId := none, localSl := 99 }

/-- State holding only pos_c1 under the long aggressive key. -/
def st_c1 : BotState := { st0 with positions := dset st0.positions keyLA pos_c1 }

/-- First signal tick of the cooldown scenario: RSI 28 at time 1000 on an
empty state; the long edge fires and the three long positions open. -/
def st_c2_tick1 : BotState :=
  signal_tick cfg0 st0 symA (some 28) 100 1000 (fun _ => 1) (fun _ => false) (fun _ => false)

/-- Second signal tick: RSI 75 at time 1100, an edge into above 100 s after
the long signal, inside the 300 s cooldown. -/
def st_c2_tick2 : BotState :=
  signal_tick cfg0 st_c2_tick1 symA (some 75) 100 1100 (fun _ => 1) (fun _ => false) (fun _ => false)

/-- The same second tick but with the per-symbol signal record erased,
isolating the cooldown as the only blocker. -/
def st_c2_alt : BotState :=
  signal_tick cfg0 { st_c2_tick1 with lastSignalTime := fun _ => none } symA (some 75) 100 1100
    (fun _ => 1) (fun _ => false) (fun _ => false)

/-- Config with trailing enabled: trigger 10 percent, step 20 percent. -/
def cfg_c3 : Config := { cfg0 with enableTrail := true, trailTriggerPct := 10, trailStepPct := 20 }

/-- A long position whose trailing stop has ratcheted to 104, above the
take-profit price 101: anchor 130, trailing active. -/
def pos_c3 : Position :=
  { entry := 100, qty := 1, tp := 101, sl := 95, side := Side.long, openedAt := 0,
    entryFee := 0, trailActive := true, trailAnchor := 130, beDone := true,
    tpId := none, slId := none, localSl := 104 }

/-- Live-mode variant of the base config. -/
def cfg_live : Config := { cfg0 with live := true }

/-- Signal tick in live mode where every long open order fails: the edge
into below fires at time 1000 but no position can be created. -/
def st_c4 : BotState :=
  signal_tick cfg_live st0 symA (some 28) 100 1000 (fun _ => 1) (fun _ => true) (fun _ => false)

/-- Config with fee rate 0.0008 = 1/1250. -/
def cfg_c5 : Config := { cfg0 with feeRate := 1/1250 }

/-- A long position opened at 100 with qty 1 whose stored entry fee is
100 * 1/1250 = 2/25. -/
def pos_c5 : Position :=
  { entry := 100, qty := 1, tp := 101, sl := 90, side := Side.long, openedAt := 0,
    entryFee := 2/25, trailActive := false, trailAnchor := 100, beDone := false,
    tpId := none, slId := none, localSl := 90 }

/-- State holding only pos_c5 under the long aggressive key. -/
def st_c5 : BotState := { st0 with positions := dset st0.positions keyLA pos_c5 }

/-- A long position that will stop out at a loss: entry 100, stop 90. -/
def pos_c9 : Position :=
  { entry := 100, qty := 1, tp := 200, sl := 90, side := Side.long, openedAt := 0,
    entryFee := 0, trailActive := false, trailAnchor := 100, beDone := false,
    tpId := none, slId := none, localSl := 90 }

/-- State holding only pos_c9 under the long aggressive key. -/
def st_c9_open : BotState := { st0 with positions := dset st0.positions keyLA pos_c9 }

/-- The state after the losing close of pos_c9 at price 80, time 1000:
pnl -20, so a loss timestamp is recorded under the long key. -/
def st_c9_closed : BotState := maybe_close_one cfg0 st_c9_open keyLA 80 1000 none

/-- A long position that closes at exactly zero pnl with zero fees: tp at
entry, so the take-profit touch at price 100 yields gross 0. -/
def pos_c10 : Position :=
  { entry := 100, qty := 1, tp := 100, sl := 50, side := Side.long, openedAt := 0,
    entryFee := 0, trailActive := false, trailAnchor := 100, beDone := false,
    tpId := none, slId := none, localSl := 50 }

/-- State holding only pos_c10 under the long aggressive key. -/
def st_c10 : BotState := { st0 with positions := dset st0.positions keyLA pos_c10 }

/-- Config with breakeven and trailing enabled, for ratchet witnesses. -/
def cfg_c8 : Config := { cfg0 with enableBreakeven := true, enableTrail := true }

/-- A short position for the ratchet witness: entry 100, stop 110. -/
def pos_c8s : Position :=
  { entry := 100, qty := 1, tp := 98, sl := 110, side := Side.short, openedAt := 0,
    entryFee := 0, trailActive := false, trailAnchor := 100, beDone := false,
    tpId := none, slId := none, localSl := 110 }

/-- A fresh short position: entry 100, qty 2, tp 99, stop 101, nothing
armed. -/
def pos_c1s : Position :=
  { entry := 100, qty := 2, tp := 99, sl := 101, side := Side.short, openedAt := 0,
    entryFee := 0, trailActive := false, trailAnchor := 100, beDone := false,
    tpId := none, slId := none, localSl := 101 }

/-- State holding only pos_c1s under the short aggressive key. -/
def st_c1s : BotState := { st0 with positions := dset st0.positions keySA pos_c1s }

/-- A long position for the priority witness: tp 110, stop 90, opened at
0. -/
def pos_c3w : Position :=
  { entry := 100, qty := 1, tp := 110, sl := 90, side := Side.long, openedAt := 0,
    entryFee := 0, trailActive := false, trailAnchor := 100, beDone := false,
    tpId := none, slId := none, localSl := 90 }

/-- A short position for the priority witness: tp 90, stop 110, opened at
0. -/
def pos_c3ws : Position :=
  { entry := 100, qty := 1, tp := 90, sl := 110, side := Side.short, openedAt := 0,
    entryFee := 0, trailActive := false, trailAnchor := 100, beDone := false,
    tpId := none, slId := none, localSl := 110 }

lemma dset_self {α β : Type} [DecidableEq α] (d : α → Option β) (k : α) (v : β) :
    dset d k v k = some v := by
  simp [dset]

lemma dgetD_dset_self {α β : Type} [DecidableEq α] (d : α → Option β) (k : α) (v x : β) :
    dgetD (dset d k v) k x = v := by
  simp [dgetD, dset]

lemma dpop_self {α β : Type} [DecidableEq α] (d : α → Option β) (k : α) :
    dpop d k k = none := by
  simp [dpop]

lemma ab_side (cfg : Config) (pos : Position) (price : ℚ) :
    (apply_breakeven cfg pos price).side = pos.side := by
  unfold apply_breakeven; split_ifs <;> rfl

lemma ab_tp (cfg : Config) (pos : Position) (price : ℚ) :
    (apply_breakeven cfg pos price).tp = pos.tp := by
  unfold apply_breakeven; split_ifs <;> rfl

lemma ab_entry (cfg : Config) (pos : Position) (price : ℚ) :
    (apply_breakeven cfg pos price).entry = pos.entry := by
  unfold apply_breakeven; split_ifs <;> rfl

lemma ab_qty (cfg : Config) (pos : Position) (price : ℚ) :
    (apply_breakeven cfg pos price).qty = pos.qty := by
  unfold apply_breakeven; split_ifs <;> rfl

lemma ab_entryFee (cfg : Config) (pos : Position) (price : ℚ) :
    (apply_breakeven cfg pos price).entryFee = pos.entryFee := by
  unfold apply_breakeven; split_ifs <;> rfl

lemma ab_openedAt (cfg : Config) (pos : Position) (price : ℚ) :
    (apply_breakeven cfg pos price).openedAt = pos.openedAt := by
  unfold apply_breakeven; split_ifs <;> rfl

lemma at_side (cfg : Config) (pos : Position) (price : ℚ) :
    (apply_trailing cfg pos price).side = pos.side := by
  unfold apply_trailing; split_ifs <;> rfl

lemma at_tp (cfg : Config) (pos : Position) (price : ℚ) :
    (apply_trailing cfg pos price).tp = pos.tp := by
  unfold apply_trailing; split_ifs <;> rfl

lemma at_entry (cfg : Config) (pos : Position) (price : ℚ) :
    (apply_trailing cfg pos price).entry = pos.entry := by
  unfold apply_trailing; split_ifs <;> rfl

lemma at_qty (cfg : Config) (pos : Position) (price : ℚ) :
    (apply_trailing cfg pos price).qty = pos.qty := by
  unfold apply_trailing; split_ifs <;> rfl

lemma at_entryFee (cfg : Config) (pos : Position) (price : ℚ) :
    (apply_trailing cfg pos price).entryFee = pos.entryFee := by
  unfold apply_trailing; split_ifs <;> rfl

lemma at_openedAt (cfg : Config) (pos : Position) (price : ℚ) :
    (apply_trailing cfg pos price).openedAt = pos.openedAt := by
  unfold apply_trailing; split_ifs <;> rfl

lemma abt_side (cfg : Config) (pos : Position) (price : ℚ) :
    (apply_breakeven_and_trailing cfg pos price).side = pos.side := by
  unfold apply_breakeven_and_trailing; rw [at_side, ab_side]

lemma abt_tp (cfg : Config) (pos : Position) (price : ℚ) :
    (apply_breakeven_and_trailing cfg pos price).tp = pos.tp := by
  unfold apply_breakeven_and_trailing; rw [at_tp, ab_tp]

lemma abt_entry (cfg : Config) (pos : Position) (price : ℚ) :
    (apply_breakeven_and_trailing cfg pos price).entry = pos.entry := by
  unfold apply_breakeven_and_trailing; rw [at_entry, ab_entry]

lemma abt_qty (cfg : Config) (pos : Position) (price : ℚ) :
    (apply_breakeven_and_trailing cfg pos price).qty = pos.qty := by
  unfold apply_breakeven_and_trailing; rw [at_qty, ab_qty]

lemma abt_entryFee (cfg : Config) (pos : Position) (price : ℚ) :
    (apply_breakeven_and_trailing cfg pos price).entryFee = pos.entryFee := by
  unfold apply_breakeven_and_trailing; rw [at_entryFee, ab_entryFee]

lemma abt_openedAt (cfg : Config) (pos : Position) (price : ℚ) :
    (apply_breakeven_and_trailing cfg pos price).openedAt = pos.openedAt := by
  unfold apply_breakeven_and_trailing; rw [at_openedAt, ab_openedAt]

lemma close_fees_abt (cfg : Config) (pos : Position) (price p2 : ℚ) :
    close_fees cfg (apply_breakeven_and_trailing cfg pos p2) price = close_fees cfg pos price := by
  unfold close_fees; rw [abt_entryFee, abt_qty]

lemma close_pnl_abt (cfg : Config) (pos : Position) (side : Side) (price p2 : ℚ) :
    close_pnl cfg (apply_breakeven_and_trailing cfg pos p2) side price
      = close_pnl cfg pos side price := by
  unfold close_pnl; rw [abt_entry, abt_qty, close_fees_abt]

lemma ab_localSl_long (cfg : Config) (pos : Position) (price : ℚ) (h : pos.side = Side.long) :
    pos.localSl ≤ (apply_breakeven cfg pos price).localSl := by
  unfold apply_breakeven
  split_ifs with h1 h2
  · exact le_max_left _ _
  · exact le_rfl
  · exact le_rfl

lemma ab_localSl_short (cfg : Config) (pos : Position) (price : ℚ) (h : pos.side = Side.short) :
    (apply_breakeven cfg pos price).localSl ≤ pos.localSl := by
  unfold apply_breakeven
  split_ifs with h1 h2 h3
  · simp [h] at h2
  · exact le_rfl
  · exact min_le_left _ _
  · exact le_rfl
  · exact le_rfl

lemma at_localSl_long (cfg : Config) (pos : Position) (price : ℚ) (h : pos.side = Side.long) :
    pos.localSl ≤ (apply_trailing cfg pos price).localSl := by
  unfold apply_trailing
  split_ifs with h1 h2
  · exact le_max_left _ _
  · exact le_rfl
  · exact le_rfl

lemma at_localSl_short (cfg : Config) (pos : Position) (price : ℚ) (h : pos.side = Side.short) :
    (apply_trailing cfg pos price).localSl ≤ pos.localSl := by
  unfold apply_trailing
  split_ifs with h1 h2 h3
  · simp [h] at h2
  · exact le_rfl
  · exact min_le_left _ _
  · exact le_rfl
  · exact le_rfl

lemma abt_localSl_long (cfg : Config) (pos : Position) (price : ℚ) (h : pos.side = Side.long) :
    pos.localSl ≤ (apply_breakeven_and_trailing cfg pos price).localSl := by
  unfold apply_breakeven_and_trailing
  exact le_trans (ab_localSl_long cfg pos price h)
    (at_localSl_long cfg _ price (by rw [ab_side]; exact h))

lemma abt_localSl_short (cfg : Config) (pos : Position) (price : ℚ) (h : pos.side = Side.short) :
    (apply_breakeven_and_trailing cfg pos price).localSl ≤ pos.localSl := by
  unfold apply_breakeven_and_trailing
  exact le_trans (at_localSl_short cfg _ price (by rw [ab_side]; exact h))
    (ab_localSl_short cfg pos price h)

lemma foldl_abt_localSl_long (cfg : Config) :
    ∀ (prices : List ℚ) (pos : Position), pos.side = Side.long →
      pos.localSl ≤ (prices.foldl (apply_breakeven_and_trailing cfg) pos).localSl
  | [], pos, _ => le_rfl
  | p :: ps, pos, h => by
      rw [List.foldl_cons]
      exact le_trans (abt_localSl_long cfg pos p h)
        (foldl_abt_localSl_long cfg ps (apply_breakeven_and_trailing cfg pos p)
          (by rw [abt_side]; exact h))

lemma foldl_abt_localSl_short (cfg : Config) :
    ∀ (prices : List ℚ) (pos : Position), pos.side = Side.short →
      (prices.foldl (apply_breakeven_and_trailing cfg) pos).localSl ≤ pos.localSl
  | [], pos, _ => le_rfl
  | p :: ps, pos, h => by
      rw [List.foldl_cons]
      exact le_trans
        (foldl_abt_localSl_short cfg ps (apply_breakeven_and_trailing cfg pos p)
          (by rw [abt_side]; exact h))
        (abt_localSl_short cfg pos p h)

lemma why_local_tp_long (pos : Position) (price : ℚ) (h : price ≥ pos.tp) :
    why_local pos Side.long price = some CloseReason.tpLocal := by
  simp [why_local, h]

lemma why_local_sl_long (pos : Position) (price : ℚ) (h1 : ¬ price ≥ pos.tp)
    (h2 : price ≤ pos.localSl) :
    why_local pos Side.long price = some CloseReason.slLocal := by
  simp [why_local, h1, h2]

lemma why_local_none_long (pos : Position) (price : ℚ) (h1 : ¬ price ≥ pos.tp)
    (h2 : ¬ price ≤ pos.localSl) :
    why_local pos Side.long price = none := by
  simp [why_local, h1, h2]

lemma why_local_tp_short (pos : Position) (price : ℚ) (h : price ≤ pos.tp) :
    why_local pos Side.short price = some CloseReason.tpLocal := by
  simp [why_local, h]

lemma why_local_sl_short (pos : Position) (price : ℚ) (h1 : ¬ price ≤ pos.tp)
    (h2 : price ≥ pos.localSl) :
    why_local pos Side.short price = some CloseReason.slLocal := by
  simp [why_local, h1, h2]

lemma why_local_none_short (pos : Position) (price : ℚ) (h1 : ¬ price ≤ pos.tp)
    (h2 : ¬ price ≥ pos.localSl) :
    why_local pos Side.short price = none := by
  simp [why_local, h1, h2]

lemma close_reason_of_why_local (cfg : Config) (pos : Position) (side : Side) (price now : ℚ)
    (ew : Option CloseReason) (w : CloseReason) (h : why_local pos side price = some w) :
    close_reason cfg pos side price now ew = some w := by
  simp [close_reason, why_with_timeout, h]

lemma close_reason_timeout (cfg : Config) (pos : Position) (side : Side) (price now : ℚ)
    (ew : Option CloseReason) (h1 : why_local pos side price = none)
    (h2 : now - pos.openedAt ≥ cfg.timeoutMin * 60) :
    close_reason cfg pos side price now ew = some CloseReason.timeoutLocal := by
  simp [close_reason, why_with_timeout, h1, h2]

lemma maybe_close_one_closes (cfg : Config) (st : BotState) (key : PosKey) (pos : Position)
    (price now : ℚ) (ew : Option CloseReason) (w : CloseReason)
    (h1 : st.positions key = some pos)
    (h2 : close_reason cfg (apply_breakeven_and_trailing cfg pos price) key.2.2 price now ew
      = some w) :
    maybe_close_one cfg st key price now ew =
      { st with
        positions := dpop st.positions key
        stats := stats_on_close cfg st.stats (close_pnl cfg pos key.2.2 price)
          (close_fees cfg pos price) (price * pos.qty)
        lastLossTime := if close_pnl cfg pos key.2.2 price < 0
          then dset st.lastLossTime key now else st.lastLossTime } := by
  unfold maybe_close_one
  rw [h1]
  simp only [h2]
  rw [close_pnl_abt, close_fees_abt, abt_qty]

lemma open_position_lastSignalTime (cfg : Config) (st : BotState) (key : PosKey)
    (price q now : ℚ) (f : Bool) :
    ((open_position cfg st key price q now f).1).lastSignalTime = st.lastSignalTime := by
  unfold open_position
  split_ifs <;> rfl

lemma open_all_modes_lastSignalTime (cfg : Config) (st : BotState) (symbol : String)
    (side : Side) (price now : ℚ) (sq : String → ℚ) (f : String → Bool) :
    (open_all_modes cfg st symbol side price now sq f).lastSignalTime = st.lastSignalTime := by
  unfold open_all_modes
  rw [open_position_lastSignalTime, open_position_lastSignalTime, open_position_lastSignalTime]

lemma deltasOf_cons_cons (a b : ℚ) (l : List ℚ) :
    deltasOf (a :: b :: l) = (b - a) :: deltasOf (b :: l) := by
  simp [deltasOf]

lemma deltasOf_replicate : ∀ (n : ℕ) (c : ℚ),
    deltasOf (List.replicate n c) = List.replicate (n - 1) (0 : ℚ)
  | 0, _ => rfl
  | 1, _ => rfl
  | n + 2, c => by
      have ih := deltasOf_replicate (n + 1) c
      have h1 : List.replicate (n + 2) c = c :: c :: List.replicate n c := rfl
      have h2 : List.replicate (n + 1) c = c :: List.replicate n c := rfl
      rw [h1, deltasOf_cons_cons, ← h2, ih]
      simp [List.replicate_succ]

lemma foldl_wilderStep_snd_zero (p : ℕ) : ∀ (m : ℕ) (acc : ℚ × ℚ), acc.2 = 0 →
    (((List.replicate m (0 : ℚ)).foldl (wilderStep p) acc)).2 = 0
  | 0, _, h => h
  | m + 1, acc, h => by
      have h1 : List.replicate (m + 1) (0 : ℚ) = 0 :: List.replicate m 0 := rfl
      rw [h1, List.foldl_cons]
      refine foldl_wilderStep_snd_zero p m _ ?_
      simp [wilderStep, h]

lemma wilderAvgs_replicate_snd (n : ℕ) (c : ℚ) (p : ℕ) :
    (wilderAvgs (List.replicate n c) p).2 = 0 := by
  unfold wilderAvgs
  rw [deltasOf_replicate, List.take_replicate, List.drop_replicate]
  refine foldl_wilderStep_snd_zero p _ _ ?_
  simp

lemma fire_long_of_below (cfg : Config) (r : ℚ) :
    fire_long cfg RsiSt.below r = false := by
  simp [fire_long]

lemma fire_short_of_above (cfg : Config) (r : ℚ) :
    fire_short cfg RsiSt.above r = false := by
  simp [fire_short]

lemma run_ticks_below_no_long (cfg : Config) : ∀ (rsis : List ℚ),
    (∀ x ∈ rsis, x < cfg.rsiBuyThreshold) →
    ((run_ticks cfg RsiSt.below rsis).all fun pr => pr.1 == false) = true
  | [], _ => rfl
  | r :: rest, h => by
      have hr : r < cfg.rsiBuyThreshold := h r (by simp)
      have hupd : rsi_state_update cfg RsiSt.below r = RsiSt.below := by
        simp [rsi_state_update, hr]
      have ih := run_ticks_below_no_long cfg rest (fun x hx => h x (by simp [hx]))
      rw [show run_ticks cfg RsiSt.below (r :: rest)
            = (fire_long cfg RsiSt.below r, fire_short cfg RsiSt.below r)
              :: run_ticks cfg (rsi_state_update cfg RsiSt.below r) rest from rfl]
      rw [hupd, List.all_cons, ih, fire_long_of_below]
      rfl

/-- C1 (amended): a take-profit touch is terminal in the code.  Whenever the
tracked position under a key of either side sees price reach its
takeProfitPrice favorably on a tick (price at or above tp for a long, at or
below tp for a short), maybe_close_one closes with reason TP(Local),
removes the position from the active set entirely (full remaining quantity
closed) and books one closed trade; there is no local partial take-profit
and no partialTaken flag. -/
theorem C1_tp_touch_terminal (cfg : Config) (st : BotState) (key : PosKey) (pos : Position)
    (price now : ℚ) (ew : Option CloseReason)
    (h1 : st.positions key = some pos)
    (htp : (key.2.2 = Side.long ∧ price ≥ pos.tp)
      ∨ (key.2.2 = Side.short ∧ price ≤ pos.tp)) :
    close_reason cfg (apply_breakeven_and_trailing cfg pos price) key.2.2 price now ew
      = some CloseReason.tpLocal
    ∧ (maybe_close_one cfg st key price now ew).positions key = none
    ∧ (maybe_close_one cfg st key price now ew).stats.trades = st.stats.trades + 1 := by
  have hw : close_reason cfg (apply_breakeven_and_trailing cfg pos price) key.2.2 price now ew
      = some CloseReason.tpLocal := by
    rcases htp with ⟨hs, hp⟩ | ⟨hs, hp⟩
    · rw [hs]
      exact close_reason_of_why_local cfg _ Side.long price now ew CloseReason.tpLocal
        (why_local_tp_long _ price (by rw [abt_tp]; exact hp))
    · rw [hs]
      exact close_reason_of_why_local cfg _ Side.short price now ew CloseReason.tpLocal
        (why_local_tp_short _ price (by rw [abt_tp]; exact hp))
  refine ⟨hw, ?_, ?_⟩
  · rw [maybe_close_one_closes cfg st key pos price now ew CloseReason.tpLocal h1 hw]
    exact dpop_self st.positions key
  · rw [maybe_close_one_closes cfg st key pos price now ew CloseReason.tpLocal h1 hw]
    rfl

/-- C1 witness: concrete runs of the amended theorem on both sides: long
pos_c1 touched at 102 above tp 101, and short pos_c1s touched at 98 below
tp 99. -/
theorem C1_witness :
    st_c1.positions keyLA = some pos_c1
    ∧ ((keyLA.2.2 = Side.long ∧ (102 : ℚ) ≥ pos_c1.tp)
        ∨ (keyLA.2.2 = Side.short ∧ (102 : ℚ) ≤ pos_c1.tp))
    ∧ st_c1s.positions keySA = some pos_c1s
    ∧ ((keySA.2.2 = Side.long ∧ (98 : ℚ) ≥ pos_c1s.tp)
        ∨ (keySA.2.2 = Side.short ∧ (98 : ℚ) ≤ pos_c1s.tp))
    ∧ (close_reason cfg0 (apply_breakeven_and_trailing cfg0 pos_c1 102) keyLA.2.2 102 0 none
         = some CloseReason.tpLocal
       ∧ (maybe_close_one cfg0 st_c1 keyLA 102 0 none).positions keyLA = none
       ∧ (maybe_close_one cfg0 st_c1 keyLA 102 0 none).stats.trades = st_c1.stats.trades + 1)
    ∧ (close_reason cfg0 (apply_breakeven_and_trailing cfg0 pos_c1s 98) keySA.2.2 98 0 none
         = some CloseReason.tpLocal
       ∧ (maybe_close_one cfg0 st_c1s keySA 98 0 none).positions keySA = none
       ∧ (maybe_close_one cfg0 st_c1s keySA 98 0 none).stats.trades
         = st_c1s.stats.trades + 1) :=
  ⟨by simp [st_c1, st0, dset],
   Or.inl ⟨rfl, by norm_num [pos_c1]⟩,
   by simp [st_c1s, st0, dset],
   Or.inr ⟨rfl, by norm_num [pos_c1s]⟩,
   C1_tp_touch_terminal cfg0 st_c1 keyLA pos_c1 102 0 none (by simp [st_c1, st0, dset])
     (Or.inl ⟨rfl, by norm_num [pos_c1]⟩),
   C1_tp_touch_terminal cfg0 st_c1s keySA pos_c1s 98 0 none (by simp [st_c1s, st0, dset])
     (Or.inr ⟨rfl, by norm_num [pos_c1s]⟩)⟩

/-- C1 counterexample to the claim as stated: pos_c1 has quantity 2, no
partial profit has been taken, price 102 has reached tp 101 favorably and no
trailing exit fired (trailing inactive, stop 99 far below), yet the tick
removes the position from the active set and books a full closed trade: the
take-profit touch IS a terminal transition, no partial quantity remains. -/
theorem C1_counterexample :
    st_c1.positions keyLA = some pos_c1
    ∧ pos_c1.trailActive = false
    ∧ (maybe_close_one cfg0 st_c1 keyLA 102 0 none).positions keyLA = none
    ∧ (maybe_close_one cfg0 st_c1 keyLA 102 0 none).stats.trades = 1 := by
  norm_num +decide [maybe_close_one, close_reason, why_with_timeout, why_local,
    apply_breakeven_and_trailing, apply_breakeven, apply_trailing, close_pnl, close_fees,
    stats_on_close, compute_fee, pct, st_c1, st0, stats0, cfg0, pos_c1, keyLA, symA, agresivo,
    dset, dpop, dgetD]

/-- C2 (amended): the signal cooldown is tracked per symbol only.  While
fewer than signalCooldown seconds have passed since last_signal_time for a
symbol, the whole signal section of the tick opens nothing for that symbol,
for either side and every tier, and leaves the signal record unchanged. -/
theorem C2_symbol_cooldown_gate (cfg : Config) (st : BotState) (symbol : String)
    (r price now : ℚ) (sq : String → ℚ) (fL fS : String → Bool)
    (h : now - dgetD st.lastSignalTime symbol 0 < cfg.signalCooldown) :
    (signal_tick cfg st symbol (some r) price now sq fL fS).positions = st.positions
    ∧ (signal_tick cfg st symbol (some r) price now sq fL fS).lastSignalTime
      = st.lastSignalTime := by
  have hn : ¬ (now - dgetD st.lastSignalTime symbol 0 ≥ cfg.signalCooldown) := not_le.mpr h
  constructor <;> simp [signal_tick, hn]

/-- C2 witness: concrete run of the gate theorem 100 s into the 300 s
cooldown window. -/
theorem C2_witness :
    (100 : ℚ) - dgetD st0.lastSignalTime symA 0 < cfg0.signalCooldown
    ∧ ((signal_tick cfg0 st0 symA (some 28) 100 100 (fun _ => 1) (fun _ => false)
        (fun _ => false)).positions = st0.positions
       ∧ (signal_tick cfg0 st0 symA (some 28) 100 100 (fun _ => 1) (fun _ => false)
        (fun _ => false)).lastSignalTime = st0.lastSignalTime) :=
  ⟨by norm_num [st0, dgetD, cfg0],
   C2_symbol_cooldown_gate cfg0 st0 symA 28 100 100 (fun _ => 1) (fun _ => false)
     (fun _ => false) (by norm_num [st0, dgetD, cfg0])⟩

/-- C2 counterexample to the claim as stated: at time 1000 the long edge on
symA opens the long aggressive position and marks the signal time; at time
1100, 100 s later and inside the 300 s cooldown, a genuine edge into above
occurs (state moves to above), which is a different side and would open the
three short tiers, yet no short position is opened; erasing only the
per-symbol record makes the very same tick open the short, so the record for
the long open does block the other side, contradicting per-(symbol, tier,
side) keying. -/
theorem C2_counterexample :
    (st_c2_tick1.positions keyLA).isSome = true
    ∧ dgetD st_c2_tick1.lastSignalTime symA 0 = 1000
    ∧ st_c2_tick2.rsiState symA = some RsiSt.above
    ∧ st_c2_tick2.positions keySA = none
    ∧ dgetD st_c2_tick2.lastSignalTime symA 0 = 1000
    ∧ (st_c2_alt.positions keySA).isSome = true := by
  norm_num +decide [st_c2_tick2, st_c2_tick1, st_c2_alt, signal_tick, open_all_modes,
    open_position, new_position, st0, cfg0, stats0, dgetD, dset, notional_per_lot, cap_by_mode,
    lots_by_mode, tp_sl_by_mode, compute_fee, pct, rsi_state_update, keyLA, keySA, symA,
    agresivo, moderado, conservador]

/-- C3 (amended): for positions of either side the watchdog evaluates exits
in the fixed order take-profit touch first, then effective stop (local_sl,
which carries the breakeven and trailing ratchets), then timeout; there is
no TRAIL close reason, a trailing crossing closes as SL(Local), and when the
take-profit condition also holds on the same tick the reason is TP(Local).
The long position pos sees the three exits at prices p1, p2, p3 and the
short position posS at q1, q2, q3. -/
theorem C3_priority_order (cfg : Config) (pos posS : Position)
    (p1 p2 p3 q1 q2 q3 now nowS : ℚ) (ew : Option CloseReason)
    (h1 : p1 ≥ pos.tp)
    (h2a : p2 < pos.tp) (h2b : p2 ≤ pos.localSl)
    (h3a : p3 < pos.tp) (h3b : pos.localSl < p3)
    (h3c : now - pos.openedAt ≥ cfg.timeoutMin * 60)
    (h4 : q1 ≤ posS.tp)
    (h5a : posS.tp < q2) (h5b : q2 ≥ posS.localSl)
    (h6a : posS.tp < q3) (h6b : q3 < posS.localSl)
    (h6c : nowS - posS.openedAt ≥ cfg.timeoutMin * 60) :
    close_reason cfg pos Side.long p1 now ew = some CloseReason.tpLocal
    ∧ close_reason cfg pos Side.long p2 now ew = some CloseReason.slLocal
    ∧ close_reason cfg pos Side.long p3 now ew = some CloseReason.timeoutLocal
    ∧ close_reason cfg posS Side.short q1 nowS ew = some CloseReason.tpLocal
    ∧ close_reason cfg posS Side.short q2 nowS ew = some CloseReason.slLocal
    ∧ close_reason cfg posS Side.short q3 nowS ew = some CloseReason.timeoutLocal := by
  refine ⟨?_, ?_, ?_, ?_, ?_, ?_⟩
  · exact close_reason_of_why_local cfg pos Side.long p1 now ew CloseReason.tpLocal
      (why_local_tp_long pos p1 h1)
  · exact close_reason_of_why_local cfg pos Side.long p2 now ew CloseReason.slLocal
      (why_local_sl_long pos p2 (not_le.mpr h2a) h2b)
  · exact close_reason_timeout cfg pos Side.long p3 now ew
      (why_local_none_long pos p3 (not_le.mpr h3a) (not_le.mpr h3b)) h3c
  · exact close_reason_of_why_local cfg posS Side.short q1 nowS ew CloseReason.tpLocal
      (why_local_tp_short posS q1 h4)
  · exact close_reason_of_why_local cfg posS Side.short q2 nowS ew CloseReason.slLocal
      (why_local_sl_short posS q2 (not_le.mpr h5a) h5b)
  · exact close_reason_timeout cfg posS Side.short q3 nowS ew
      (why_local_none_short posS q3 (not_le.mpr h6a) (not_le.mpr h6b)) h6c

/-- C3 witness: concrete run of the priority theorem on both sides: the long
pos_c3w (tp 110, stop 90) at prices 110 (TP), 90 (stop), 100 (timeout at
time 1000 with the 15-minute timeout), and the short pos_c3ws (tp 90, stop
110) at prices 90 (TP), 110 (stop), 100 (timeout). -/
theorem C3_witness :
    (110 : ℚ) ≥ pos_c3w.tp ∧ (90 : ℚ) < pos_c3w.tp ∧ (90 : ℚ) ≤ pos_c3w.localSl
    ∧ (100 : ℚ) < pos_c3w.tp ∧ pos_c3w.localSl < (100 : ℚ)
    ∧ (1000 : ℚ) - pos_c3w.openedAt ≥ cfg0.timeoutMin * 60
    ∧ (90 : ℚ) ≤ pos_c3ws.tp ∧ pos_c3ws.tp < (110 : ℚ) ∧ (110 : ℚ) ≥ pos_c3ws.localSl
    ∧ pos_c3ws.tp < (100 : ℚ) ∧ (100 : ℚ) < pos_c3ws.localSl
    ∧ (1000 : ℚ) - pos_c3ws.openedAt ≥ cfg0.timeoutMin * 60
    ∧ (close_reason cfg0 pos_c3w Side.long 110 1000 none = some CloseReason.tpLocal
       ∧ close_reason cfg0 pos_c3w Side.long 90 1000 none = some CloseReason.slLocal
       ∧ close_reason cfg0 pos_c3w Side.long 100 1000 none = some CloseReason.timeoutLocal
       ∧ close_reason cfg0 pos_c3ws Side.short 90 1000 none = some CloseReason.tpLocal
       ∧ close_reason cfg0 pos_c3ws Side.short 110 1000 none = some CloseReason.slLocal
       ∧ close_reason cfg0 pos_c3ws Side.short 100 1000 none
         = some CloseReason.timeoutLocal) :=
  ⟨by norm_num [pos_c3w], by norm_num [pos_c3w], by norm_num [pos_c3w],
   by norm_num [pos_c3w], by norm_num [pos_c3w], by norm_num [pos_c3w, cfg0],
   by norm_num [pos_c3ws], by norm_num [pos_c3ws], by norm_num [pos_c3ws],
   by norm_num [pos_c3ws], by norm_num [pos_c3ws], by norm_num [pos_c3ws, cfg0],
   C3_priority_order cfg0 pos_c3w pos_c3ws 110 90 100 90 110 100 1000 1000 none
     (by norm_num [pos_c3w]) (by norm_num [pos_c3w]) (by norm_num [pos_c3w])
     (by norm_num [pos_c3w]) (by norm_num [pos_c3w]) (by norm_num [pos_c3w, cfg0])
     (by norm_num [pos_c3ws]) (by norm_num [pos_c3ws]) (by norm_num [pos_c3ws])
     (by norm_num [pos_c3ws]) (by norm_num [pos_c3ws]) (by norm_num [pos_c3ws, cfg0])⟩

/-- C3 counterexample to the claim as stated: pos_c3 has trailing armed
(trail_active) with ratcheted stop 104 above tp 101; at price 103 the price
has crossed the armed trailing stop unfavorably (103 <= 104) while the
take-profit condition also holds (103 >= 101), and the close reason is
TP(Local), not a trailing reason: take-profit is evaluated before the stop,
and no TRAIL reason exists in the code. -/
theorem C3_counterexample :
    close_reason cfg_c3 (apply_breakeven_and_trailing cfg_c3 pos_c3 103) Side.long 103 0 none
      = some CloseReason.tpLocal
    ∧ (apply_breakeven_and_trailing cfg_c3 pos_c3 103).trailActive = true
    ∧ (103 : ℚ) ≤ (apply_breakeven_and_trailing cfg_c3 pos_c3 103).localSl := by
  norm_num +decide [close_reason, why_with_timeout, why_local, apply_breakeven_and_trailing,
    apply_breakeven, apply_trailing, cfg_c3, cfg0, pos_c3, pct]

/-- C4 (amended): when the live open order fails, open_position aborts with
no position created and no open notification, but the per-symbol signal
timestamp is still marked by the main loop when the edge fires, regardless
of whether any open succeeded. -/
theorem C4_open_failure (cfg : Config) (st : BotState) (key : PosKey) (price q now : ℚ)
    (stS : BotState) (symbol : String) (r priceS nowS : ℚ) (sq : String → ℚ)
    (fL fS : String → Bool)
    (hL : cfg.live = true)
    (hGate : nowS - dgetD stS.lastSignalTime symbol 0 ≥ cfg.signalCooldown)
    (hPrev : dgetD stS.rsiState symbol RsiSt.mid ≠ RsiSt.below)
    (hNew : rsi_state_update cfg (dgetD stS.rsiState symbol RsiSt.mid) r = RsiSt.below) :
    open_position cfg st key price q now true = (st, false)
    ∧ dgetD (signal_tick cfg stS symbol (some r) priceS nowS sq fL fS).lastSignalTime symbol 0
      = nowS := by
  constructor
  · unfold open_position
    split_ifs with g1 g2 g3 g4 g5
    · rfl
    · rfl
    · rfl
    · rfl
    · rfl
    · exact absurd ⟨hL, rfl⟩ g5
  · simp [signal_tick, hGate, hNew, hPrev, open_all_modes_lastSignalTime, dgetD_dset_self]

/-- C4 witness: concrete run in live mode with every long open failing at
time 1000 on an empty state. -/
theorem C4_witness :
    cfg_live.live = true
    ∧ (1000 : ℚ) - dgetD st0.lastSignalTime symA 0 ≥ cfg_live.signalCooldown
    ∧ dgetD st0.rsiState symA RsiSt.mid ≠ RsiSt.below
    ∧ rsi_state_update cfg_live (dgetD st0.rsiState symA RsiSt.mid) 28 = RsiSt.below
    ∧ (open_position cfg_live st0 keyLA 100 1 0 true = (st0, false)
       ∧ dgetD (signal_tick cfg_live st0 symA (some 28) 100 1000 (fun _ => 1)
          (fun _ => true) (fun _ => false)).lastSignalTime symA 0 = 1000) :=
  ⟨rfl, by norm_num [st0, dgetD, cfg_live, cfg0],
   by simp [st0, dgetD],
   by norm_num +decide [rsi_state_update, cfg_live, cfg0, st0, dgetD],
   C4_open_failure cfg_live st0 keyLA 100 1 0 st0 symA 28 100 1000 (fun _ => 1)
     (fun _ => true) (fun _ => false) rfl (by norm_num [st0, dgetD, cfg_live, cfg0])
     (by simp [st0, dgetD])
     (by norm_num +decide [rsi_state_update, cfg_live, cfg0, st0, dgetD])⟩

/-- C4 counterexample to the claim as stated: in live mode at time 1000 the
long edge fires with every open order failing; no position is created for
any tier, yet last_signal_time for the symbol is marked 1000 for that very
attempt, contradicting that no signal-cooldown timestamp is marked. -/
theorem C4_counterexample :
    st_c4.positions keyLA = none
    ∧ st_c4.positions (symA, moderado, Side.long) = none
    ∧ st_c4.positions (symA, conservador, Side.long) = none
    ∧ dgetD st_c4.lastSignalTime symA 0 = 1000 := by
  norm_num +decide [st_c4, signal_tick, open_all_modes, open_position, new_position, st0,
    cfg_live, cfg0, stats0, dgetD, dset, notional_per_lot, cap_by_mode, lots_by_mode,
    tp_sl_by_mode, compute_fee, pct, rsi_state_update, keyLA, symA, agresivo, moderado,
    conservador]

/-- C5 (amended): on every terminal close the fees added to the totals equal
feeRate times the sum of entry notional and exit notional (entry fee stored
at open plus exit fee on the closing notional); this equals N * r * 2 only
when the exit notional equals the entry notional. -/
theorem C5_fee_sum (cfg : Config) (st : BotState) (key : PosKey) (pos : Position)
    (price now : ℚ) (ew : Option CloseReason) (w : CloseReason)
    (h1 : st.positions key = some pos)
    (h2 : close_reason cfg (apply_breakeven_and_trailing cfg pos price) key.2.2 price now ew
      = some w)
    (h3 : pos.entryFee = compute_fee cfg (pos.entry * pos.qty)) :
    (maybe_close_one cfg st key price now ew).stats.fees
      = st.stats.fees + cfg.feeRate * (pos.entry * pos.qty + price * pos.qty) := by
  rw [maybe_close_one_closes cfg st key pos price now ew w h1 h2]
  simp only [stats_on_close]
  rw [close_fees, h3]
  unfold compute_fee
  ring

/-- C5 witness: concrete run of the fee theorem on pos_c5 closed at 110 with
fee rate 1/1250. -/
theorem C5_witness :
    st_c5.positions keyLA = some pos_c5
    ∧ close_reason cfg_c5 (apply_breakeven_and_trailing cfg_c5 pos_c5 110) keyLA.2.2 110 0 none
      = some CloseReason.tpLocal
    ∧ pos_c5.entryFee = compute_fee cfg_c5 (pos_c5.entry * pos_c5.qty)
    ∧ (maybe_close_one cfg_c5 st_c5 keyLA 110 0 none).stats.fees
      = st_c5.stats.fees + cfg_c5.feeRate * (pos_c5.entry * pos_c5.qty + 110 * pos_c5.qty) :=
  ⟨by simp [st_c5, st0, dset],
   by norm_num +decide [close_reason, why_with_timeout, why_local,
     apply_breakeven_and_trailing, apply_breakeven, apply_trailing, cfg_c5, cfg0, pos_c5,
     keyLA, pct],
   by norm_num [pos_c5, compute_fee, cfg_c5, cfg0],
   C5_fee_sum cfg_c5 st_c5 keyLA pos_c5 110 0 none CloseReason.tpLocal
     (by simp [st_c5, st0, dset])
     (by norm_num +decide [close_reason, why_with_timeout, why_local,
       apply_breakeven_and_trailing, apply_breakeven, apply_trailing, cfg_c5, cfg0, pos_c5,
       keyLA, pct])
     (by norm_num [pos_c5, compute_fee, cfg_c5, cfg0])⟩

/-- C5 counterexample to the claim as stated: pos_c5 opened at 100 with
qty 1 and fee rate r = 1/1250 closes at 110; total fees are
r*(100 + 110) = 21/125 = 0.168, but N*r*2 = 100*r*2 = 0.16, so the fee is
not N * r * 2. -/
theorem C5_counterexample :
    (maybe_close_one cfg_c5 st_c5 keyLA 110 0 none).stats.fees = 21 / 125
    ∧ (maybe_close_one cfg_c5 st_c5 keyLA 110 0 none).stats.fees
      ≠ pos_c5.entry * pos_c5.qty * cfg_c5.feeRate * 2 := by
  norm_num +decide [maybe_close_one, close_reason, why_with_timeout, why_local,
    apply_breakeven_and_trailing, apply_breakeven, apply_trailing, close_pnl, close_fees,
    stats_on_close, compute_fee, pct, st_c5, st0, stats0, cfg_c5, cfg0, pos_c5, keyLA, symA,
    agresivo, dset, dpop, dgetD]

/-- C6: rsi_wilder is undefined exactly when the input has length at most
period; any sufficiently long input whose smoothed average loss ends at zero
yields RSI 100, and in particular every all-flat series does. -/
theorem C6_rsi_undefined_avgloss (closes1 closes2 : List ℚ) (period n : ℕ) (c : ℚ)
    (hp : 0 < period)
    (hlen2 : period + 1 ≤ closes2.length)
    (hloss2 : (wilderAvgs closes2 period).2 = 0)
    (hn : period + 1 ≤ n) :
    (rsi_wilder closes1 period = none ↔ closes1.length ≤ period)
    ∧ rsi_wilder closes2 period = some 100
    ∧ rsi_wilder (List.replicate n c) period = some 100 := by
  refine ⟨?_, ?_, ?_⟩
  · unfold rsi_wilder
    split_ifs with g1 g2
    · simp; omega
    · simp; omega
    · simp; omega
  · unfold rsi_wilder
    rw [if_neg (by omega), if_pos hloss2]
  · unfold rsi_wilder
    rw [if_neg (by simp; omega), if_pos (wilderAvgs_replicate_snd n c period)]

/-- C6 witness: period 2; [1, 2] is too short and undefined; [1, 1, 2, 3]
has final average loss 0 and RSI 100; the flat series of three 5s has RSI
100. -/
theorem C6_witness :
    (0 < 2) ∧ (2 + 1 ≤ ([(1 : ℚ), 1, 2, 3]).length)
    ∧ (wilderAvgs [(1 : ℚ), 1, 2, 3] 2).2 = 0 ∧ (2 + 1 ≤ 3)
    ∧ ((rsi_wilder [(1 : ℚ), 2] 2 = none ↔ ([(1 : ℚ), 2]).length ≤ 2)
       ∧ rsi_wilder [(1 : ℚ), 1, 2, 3] 2 = some 100
       ∧ rsi_wilder (List.replicate 3 (5 : ℚ)) 2 = some 100) :=
  ⟨by norm_num, by norm_num, by norm_num [wilderAvgs, wilderStep, deltasOf], by norm_num,
   C6_rsi_undefined_avgloss [1, 2] [1, 1, 2, 3] 2 3 5 (by norm_num) (by norm_num)
     (by norm_num [wilderAvgs, wilderStep, deltasOf]) (by norm_num)⟩

/-- C7: entry signals are edge-triggered.  From state below, a tick whose
RSI is still under buyThreshold keeps firing nothing, and over any run of
such ticks no long signal ever fires; a long signal firing implies the
previous state was not below and the new state is below, and symmetrically
for shorts into above. -/
theorem C7_edge_triggered (cfg : Config) (prev prev2 : RsiSt) (r r2 : ℚ) (rsis : List ℚ)
    (hr : ∀ x ∈ rsis, x < cfg.rsiBuyThreshold)
    (hf : fire_long cfg prev r = true)
    (hf2 : fire_short cfg prev2 r2 = true) :
    fire_long cfg RsiSt.below r = false
    ∧ (prev ≠ RsiSt.below ∧ rsi_state_update cfg prev r = RsiSt.below)
    ∧ ((run_ticks cfg RsiSt.below rsis).all fun pr => pr.1 == false) = true
    ∧ fire_short cfg RsiSt.above r2 = false
    ∧ (prev2 ≠ RsiSt.above ∧ rsi_state_update cfg prev2 r2 = RsiSt.above) := by
  refine ⟨fire_long_of_below cfg r, ?_, run_ticks_below_no_long cfg rsis hr,
    fire_short_of_above cfg r2, ?_⟩
  · simpa [fire_long] using hf
  · simpa [fire_short] using hf2

/-- C7 witness: with thresholds 30/70, from mid an RSI of 28 fires the long
edge and an RSI of 75 fires the short edge; the run [28, 25] from below
fires nothing. -/
theorem C7_witness :
    (∀ x ∈ [(28 : ℚ), 25], x < cfg0.rsiBuyThreshold)
    ∧ fire_long cfg0 RsiSt.mid 28 = true
    ∧ fire_short cfg0 RsiSt.mid 75 = true
    ∧ (fire_long cfg0 RsiSt.below 28 = false
       ∧ (RsiSt.mid ≠ RsiSt.below ∧ rsi_state_update cfg0 RsiSt.mid 28 = RsiSt.below)
       ∧ ((run_ticks cfg0 RsiSt.below [28, 25]).all fun pr => pr.1 == false) = true
       ∧ fire_short cfg0 RsiSt.above 75 = false
       ∧ (RsiSt.mid ≠ RsiSt.above ∧ rsi_state_update cfg0 RsiSt.mid 75 = RsiSt.above)) :=
  ⟨by norm_num [cfg0],
   by norm_num +decide [fire_long, rsi_state_update, cfg0],
   by norm_num +decide [fire_short, rsi_state_update, cfg0],
   C7_edge_triggered cfg0 RsiSt.mid RsiSt.mid 28 75 [28, 25] (by norm_num [cfg0])
     (by norm_num +decide [fire_long, rsi_state_update, cfg0])
     (by norm_num +decide [fire_short, rsi_state_update, cfg0])⟩

/-- C8: the effective stop local_sl is a monotonic ratchet.  Over any
sequence of per-tick breakeven/trailing updates, the effective stop of a
long position never decreases and that of a short position never increases,
whether or not the protections have armed yet. -/
theorem C8_stop_ratchet (cfg : Config) (posL posS : Position) (prices : List ℚ)
    (hL : posL.side = Side.long) (hS : posS.side = Side.short) :
    posL.localSl ≤ (prices.foldl (apply_breakeven_and_trailing cfg) posL).localSl
    ∧ (prices.foldl (apply_breakeven_and_trailing cfg) posS).localSl ≤ posS.localSl :=
  ⟨foldl_abt_localSl_long cfg prices posL hL, foldl_abt_localSl_short cfg prices posS hS⟩

/-- C8 witness: concrete run of the ratchet theorem with breakeven and
trailing enabled over the price path [101, 99, 102]. -/
theorem C8_witness :
    pos_c9.side = Side.long ∧ pos_c8s.side = Side.short
    ∧ (pos_c9.localSl
        ≤ (([101, 99, 102] : List ℚ).foldl (apply_breakeven_and_trailing cfg_c8) pos_c9).localSl
       ∧ (([101, 99, 102] : List ℚ).foldl (apply_breakeven_and_trailing cfg_c8)
          pos_c8s).localSl ≤ pos_c8s.localSl) :=
  ⟨rfl, rfl, C8_stop_ratchet cfg_c8 pos_c9 pos_c8s [101, 99, 102] rfl rfl⟩

/-- C9 (amended): the loss cooldown is keyed by the full (symbol, tier,
side) key.  On a terminal close the loss timestamp for the closed key is
recorded exactly when the net pnl is strictly negative; any open attempt for
a key whose last loss is less than lossCooldown seconds old is rejected with
no state change, and once lossCooldown seconds have passed an otherwise
valid open for that key succeeds. -/
theorem C9_loss_cooldown (cfg : Config) (st : BotState) (key : PosKey) (pos : Position)
    (price now : ℚ) (ew : Option CloseReason) (w : CloseReason)
    (stO : BotState) (keyO : PosKey) (priceO qO nowB nowA : ℚ) (fO : Bool)
    (h1 : st.positions key = some pos)
    (h2 : close_reason cfg (apply_breakeven_and_trailing cfg pos price) key.2.2 price now ew
      = some w)
    (hcool : nowB - dgetD stO.lastLossTime keyO 0 < cfg.lossCooldownSec)
    (hpast : nowA - dgetD stO.lastLossTime keyO 0 ≥ cfg.lossCooldownSec)
    (hfree : stO.positions keyO = none)
    (hnot : 0 < notional_per_lot cfg keyO.2.1)
    (hpr : 0 < priceO) (hq : 0 < qO) (hlive : cfg.live = false) :
    (maybe_close_one cfg st key price now ew).lastLossTime
      = (if close_pnl cfg pos key.2.2 price < 0 then dset st.lastLossTime key now
         else st.lastLossTime)
    ∧ open_position cfg stO keyO priceO qO nowB fO = (stO, false)
    ∧ ((open_position cfg stO keyO priceO qO nowA fO).1.positions keyO).isSome = true
    ∧ (open_position cfg stO keyO priceO qO nowA fO).2 = true := by
  have hn2 : ¬ (nowA - dgetD stO.lastLossTime keyO 0 < cfg.lossCooldownSec) :=
    not_lt.mpr hpast
  have hn3 : ¬ (notional_per_lot cfg keyO.2.1 ≤ 0 ∨ priceO ≤ 0) := by
    push_neg
    exact ⟨hnot, hpr⟩
  have hn4 : ¬ (qO ≤ 0) := not_le.mpr hq
  refine ⟨?_, ?_, ?_, ?_⟩
  · rw [maybe_close_one_closes cfg st key pos price now ew w h1 h2]
  · unfold open_position
    split_ifs with g1 <;> rfl
  · simp [open_position, hfree, hn2, hn3, hn4, hlive, dset_self]
  · simp [open_position, hfree, hn2, hn3, hn4, hlive]

/-- C9 witness: pos_c9 stops out at 80 at time 1000 with pnl -20, recording
the loss under the long key; an open for that key at 1100 is rejected, and
an open at 2000, past the 900 s cooldown, succeeds. -/
theorem C9_witness :
    st_c9_open.positions keyLA = some pos_c9
    ∧ close_reason cfg0 (apply_breakeven_and_trailing cfg0 pos_c9 80) keyLA.2.2 80 1000 none
      = some CloseReason.slLocal
    ∧ (1100 : ℚ) - dgetD st_c9_closed.lastLossTime keyLA 0 < cfg0.lossCooldownSec
    ∧ (2000 : ℚ) - dgetD st_c9_closed.lastLossTime keyLA 0 ≥ cfg0.lossCooldownSec
    ∧ st_c9_closed.positions keyLA = none
    ∧ 0 < notional_per_lot cfg0 keyLA.2.1
    ∧ ((maybe_close_one cfg0 st_c9_open keyLA 80 1000 none).lastLossTime
        = (if close_pnl cfg0 pos_c9 keyLA.2.2 80 < 0 then dset st_c9_open.lastLossTime keyLA 1000
           else st_c9_open.lastLossTime)
       ∧ open_position cfg0 st_c9_closed keyLA 100 1 1100 false = (st_c9_closed, false)
       ∧ ((open_position cfg0 st_c9_closed keyLA 100 1 2000 false).1.positions keyLA).isSome
         = true
       ∧ (open_position cfg0 st_c9_closed keyLA 100 1 2000 false).2 = true) :=
  ⟨by simp [st_c9_open, st0, dset],
   by norm_num +decide [close_reason, why_with_timeout, why_local,
     apply_breakeven_and_trailing, apply_breakeven, apply_trailing, cfg0, pos_c9, keyLA, pct],
   by norm_num +decide [st_c9_closed, st_c9_open, maybe_close_one, close_reason,
     why_with_timeout, why_local, apply_breakeven_and_trailing, apply_breakeven, apply_trailing,
     close_pnl, close_fees, stats_on_close, compute_fee, pct, st0, stats0, cfg0, pos_c9, keyLA,
     symA, agresivo, dset, dpop, dgetD],
   by norm_num +decide [st_c9_closed, st_c9_open, maybe_close_one, close_reason,
     why_with_timeout, why_local, apply_breakeven_and_trailing, apply_breakeven, apply_trailing,
     close_pnl, close_fees, stats_on_close, compute_fee, pct, st0, stats0, cfg0, pos_c9, keyLA,
     symA, agresivo, dset, dpop, dgetD],
   by norm_num +decide [st_c9_closed, st_c9_open, maybe_close_one, close_reason,
     why_with_timeout, why_local, apply_breakeven_and_trailing, apply_breakeven, apply_trailing,
     close_pnl, close_fees, stats_on_close, compute_fee, pct, st0, stats0, cfg0, pos_c9, keyLA,
     symA, agresivo, dset, dpop, dgetD],
   by norm_num [notional_per_lot, cap_by_mode, lots_by_mode, cfg0, keyLA, agresivo],
   C9_loss_cooldown cfg0 st_c9_open keyLA pos_c9 80 1000 none CloseReason.slLocal
     st_c9_closed keyLA 100 1 1100 2000 false
     (by simp [st_c9_open, st0, dset])
     (by norm_num +decide [close_reason, why_with_timeout, why_local,
       apply_breakeven_and_trailing, apply_breakeven, apply_trailing, cfg0, pos_c9, keyLA, pct])
     (by norm_num +decide [st_c9_closed, st_c9_open, maybe_close_one, close_reason,
       why_with_timeout, why_local, apply_breakeven_and_trailing, apply_breakeven,
       apply_trailing, close_pnl, close_fees, stats_on_close, compute_fee, pct, st0, stats0,
       cfg0, pos_c9, keyLA, symA, agresivo, dset, dpop, dgetD])
     (by norm_num +decide [st_c9_closed, st_c9_open, maybe_close_one, close_reason,
       why_with_timeout, why_local, apply_breakeven_and_trailing, apply_breakeven,
       apply_trailing, close_pnl, close_fees, stats_on_close, compute_fee, pct, st0, stats0,
       cfg0, pos_c9, keyLA, symA, agresivo, dset, dpop, dgetD])
     (by norm_num +decide [st_c9_closed, st_c9_open, maybe_close_one, close_reason,
       why_with_timeout, why_local, apply_breakeven_and_trailing, apply_breakeven,
       apply_trailing, close_pnl, close_fees, stats_on_close, compute_fee, pct, st0, stats0,
       cfg0, pos_c9, keyLA, symA, agresivo, dset, dpop, dgetD])
     (by norm_num [notional_per_lot, cap_by_mode, lots_by_mode, cfg0, keyLA, agresivo])
     (by norm_num) (by norm_num) rfl⟩

/-- C9 counterexample to the claim as stated: the loss of pos_c9 at time
1000 is recorded under the full (symbol, tier, side) key; 100 s later, well
inside the 900 s loss cooldown, an open attempt for the SAME (symbol, tier)
but opposite side succeeds, so the loss timestamp is not keyed by
(symbol, tier) and does not reject every open for that pair. -/
theorem C9_counterexample :
    st_c9_closed.lastLossTime keyLA = some 1000
    ∧ (open_position cfg0 st_c9_closed keyLA 100 1 1100 false).2 = false
    ∧ ((open_position cfg0 st_c9_closed keySA 100 1 1100 false).1.positions keySA).isSome
      = true
    ∧ (open_position cfg0 st_c9_closed keySA 100 1 1100 false).2 = true := by
  norm_num +decide [st_c9_closed, st_c9_open, maybe_close_one, close_reason, why_with_timeout,
    why_local, apply_breakeven_and_trailing, apply_breakeven, apply_trailing, close_pnl,
    close_fees, stats_on_close, compute_fee, open_position, new_position, notional_per_lot,
    cap_by_mode, lots_by_mode, tp_sl_by_mode, pct, st0, stats0, cfg0, pos_c9, keyLA, keySA,
    symA, agresivo, dset, dpop, dgetD]

/-- C10: a terminal close with net pnl exactly zero counts as a win in both
the running and the hourly counters, does not increment either loss counter,
and records no loss-cooldown timestamp. -/
theorem C10_zero_pnl_win (cfg : Config) (st : BotState) (key : PosKey) (pos : Position)
    (price now : ℚ) (ew : Option CloseReason) (w : CloseReason)
    (h1 : st.positions key = some pos)
    (h2 : close_reason cfg (apply_breakeven_and_trailing cfg pos price) key.2.2 price now ew
      = some w)
    (h3 : close_pnl cfg pos key.2.2 price = 0) :
    (maybe_close_one cfg st key price now ew).stats.wins = st.stats.wins + 1
    ∧ (maybe_close_one cfg st key price now ew).stats.losses = st.stats.losses
    ∧ (maybe_close_one cfg st key price now ew).stats.hWins = st.stats.hWins + 1
    ∧ (maybe_close_one cfg st key price now ew).stats.hLosses = st.stats.hLosses
    ∧ (maybe_close_one cfg st key price now ew).lastLossTime = st.lastLossTime := by
  rw [maybe_close_one_closes cfg st key pos price now ew w h1 h2]
  have hge : close_pnl cfg pos key.2.2 price ≥ 0 := le_of_eq h3.symm
  have hnlt : ¬ (close_pnl cfg pos key.2.2 price < 0) := not_lt.mpr hge
  refine ⟨?_, ?_, ?_, ?_, ?_⟩ <;> simp [stats_on_close, hge, hnlt]

/-- C10 witness: pos_c10 with tp at entry and zero fees closes at price 100
with pnl exactly 0 and is counted as a win with no loss record. -/
theorem C10_witness :
    st_c10.positions keyLA = some pos_c10
    ∧ close_reason cfg0 (apply_breakeven_and_trailing cfg0 pos_c10 100) keyLA.2.2 100 0 none
      = some CloseReason.tpLocal
    ∧ close_pnl cfg0 pos_c10 keyLA.2.2 100 = 0
    ∧ ((maybe_close_one cfg0 st_c10 keyLA 100 0 none).stats.wins = st_c10.stats.wins + 1
       ∧ (maybe_close_one cfg0 st_c10 keyLA 100 0 none).stats.losses = st_c10.stats.losses
       ∧ (maybe_close_one cfg0 st_c10 keyLA 100 0 none).stats.hWins = st_c10.stats.hWins + 1
       ∧ (maybe_close_one cfg0 st_c10 keyLA 100 0 none).stats.hLosses = st_c10.stats.hLosses
       ∧ (maybe_close_one cfg0 st_c10 keyLA 100 0 none).lastLossTime
         = st_c10.lastLossTime) :=
  ⟨by simp [st_c10, st0, dset],
   by norm_num +decide [close_reason, why_with_timeout, why_local,
     apply_breakeven_and_trailing, apply_breakeven, apply_trailing, cfg0, pos_c10, keyLA, pct],
   by norm_num +decide [close_pnl, close_fees, compute_fee, pos_c10, keyLA, cfg0],
   C10_zero_pnl_win cfg0 st_c10 keyLA pos_c10 100 0 none CloseReason.tpLocal
     (by simp [st_c10, st0, dset])
     (by norm_num +decide [close_reason, why_with_timeout, why_local,
       apply_breakeven_and_trailing, apply_breakeven, apply_trailing, cfg0, pos_c10, keyLA,
       pct])
     (by norm_num +decide [close_pnl, close_fees, compute_fee, pos_c10, keyLA, cfg0])⟩

end Zaffex
